import Mathlib

/-!
Shallow embedding of the review-driven rating aggregation subsystem of the
Film-flair repository: the `movies`, `reviews` and `watchlist` tables of
`supabase/migrations/20250831110118_....sql`, the trigger function
`public.update_movie_rating` with its three AFTER-row triggers, the table
constraints (CHECK on `rating`, UNIQUE(user_id, movie_id) on `reviews` and
`watchlist`), the row-level-security ownership policies of the two
migrations, and the client mutation paths (`ReviewForm.tsx` insert,
`MyReviews` delete, `Home.tsx` watchlist toggle).

Identifiers (UUIDs in the source) are modelled as `Nat`. A
`DECIMAL(3,2)` column holds a fixed-point value with exactly two
fractional digits; it is modelled as the integer number of hundredths it
stores (4.50 is stored as 450). The mean is computed as an exact rational
and rounded half away from zero on assignment into the column, exactly as
PostgreSQL casts a `numeric` average into `DECIMAL(3,2)`; the theorem
`storedAverage_eq_round2_avg` connects the fixed-point model to the
rational reading `round2 (avgRating ..)`.
-/

namespace FilmFlair

/-- A row of `public.reviews`: `id` (PK), `user_id`, `movie_id`,
`rating INTEGER` with `CHECK (rating >= 1 AND rating <= 5)`, and optional
`review_text`. The INTEGER column type is modelled by `rating : Int`
(a non-integer payload is rejected by typing before reaching the table). -/
structure Review where
  id : Nat
  user_id : Nat
  movie_id : Nat
  rating : Int
  review_text : Option String
deriving DecidableEq, Repr

/-- The aggregate-bearing part of a row of `public.movies`: `id` (PK),
`average_rating DECIMAL(3,2) DEFAULT 0.00` and
`total_reviews INTEGER DEFAULT 0`. `average_rating` is the fixed-point
content of the `DECIMAL(3,2)` column, counted in hundredths (4.50 ↦ 450;
the default 0.00 ↦ 0). The catalog columns (title, genre, ...) are never
read or written by the aggregation subsystem and are omitted. -/
structure MovieRow where
  id : Nat
  average_rating : Int
  total_reviews : Nat
deriving DecidableEq, Repr

/-- A row of `public.watchlist`: `id` (PK), `user_id`, `movie_id`,
with `UNIQUE(user_id, movie_id)`. -/
structure WatchlistRow where
  id : Nat
  user_id : Nat
  movie_id : Nat
deriving DecidableEq, Repr

/-- The database state visible to the aggregation subsystem. -/
structure DB where
  movies : List MovieRow
  reviews : List Review
  watchlist : List WatchlistRow
deriving DecidableEq, Repr

/-- The error taxonomy of spec §7. `invalidInput` is a CHECK-constraint
violation, `duplicateEntry` a UNIQUE-constraint violation,
`aggregationFailure` a failure inside the trigger body. -/
inductive Err where
  | invalidInput
  | duplicateEntry
  | forbidden
  | notFound
  | aggregationFailure
deriving DecidableEq, Repr

/-- `SELECT * FROM public.reviews WHERE movie_id = mid`. -/
def reviewsFor (rs : List Review) (mid : Nat) : List Review :=
  rs.filter (fun r => r.movie_id == mid)

/-- Sum of the `rating` column over a list of review rows. -/
def ratingSum (rs : List Review) : Int :=
  (rs.map (fun r => r.rating)).sum

/-- `SELECT COALESCE(AVG(rating::DECIMAL), 0) FROM public.reviews WHERE
movie_id = mid`, as an exact rational: `AVG` of zero rows is NULL, so the
COALESCE yields 0; otherwise the arithmetic mean. -/
def avgRating (rs : List Review) (mid : Nat) : ℚ :=
  let l := reviewsFor rs mid
  if l.length = 0 then 0 else (ratingSum l : ℚ) / (l.length : ℚ)

/-- Rounding a decimal to two fractional digits, half away from zero (the
cast PostgreSQL applies when assigning a `numeric` into `DECIMAL(3,2)`).
All values the trigger stores are nonnegative means of ratings in [1,5]
(or 0), where half-away-from-zero coincides with
`floor (100 * q + 1/2) / 100`. -/
def round2 (q : ℚ) : ℚ :=
  ((⌊q * 100 + 1 / 2⌋ : ℤ) : ℚ) / 100

/-- The number of hundredths stored when the exact mean `s / n` (sum `s`
of ratings over `n` rows) is assigned into the `DECIMAL(3,2)` column:
`⌊100 * s / n + 1/2⌋ = ⌊(200 * s + n) / (2 * n)⌋`, as a floor division
of integers. -/
def roundCenti (s : Int) (n : Nat) : Int :=
  (200 * s + n).fdiv (2 * n)

/-- The value assigned into `average_rating` by the trigger's
`SET average_rating = (SELECT COALESCE(AVG(rating::DECIMAL), 0) ...)`,
in hundredths: 0 for zero rows, otherwise the exact mean rounded into
the `DECIMAL(3,2)` column. -/
def storedAverage (rs : List Review) (mid : Nat) : Int :=
  let l := reviewsFor rs mid
  if l.length = 0 then 0 else roundCenti (ratingSum l) l.length

/-- `UPDATE public.movies SET average_rating = avg, total_reviews = cnt
WHERE id = mid` (with `avg` already cast into `DECIMAL(3,2)` hundredths by
the caller). Rows whose `id` differs are untouched; if no row matches, the
update is a no-op. -/
def setMovieAgg (ms : List MovieRow) (mid : Nat) (avg : Int) (cnt : Nat) :
    List MovieRow :=
  ms.map (fun m =>
    if m.id == mid then { m with average_rating := avg, total_reviews := cnt }
    else m)

/-- The trigger function `public.update_movie_rating`, applied with target
movie id `COALESCE(NEW.movie_id, OLD.movie_id)` already resolved: writes
the recomputed average (rounded on storage into `DECIMAL(3,2)`) and count
for `target` back to that movie's row. -/
def update_movie_rating (db : DB) (target : Nat) : DB :=
  { db with
    movies := setMovieAgg db.movies target
      (storedAverage db.reviews target)
      (reviewsFor db.reviews target).length }

/-- `SELECT * FROM public.movies WHERE id = mid` (PK lookup). -/
def movieAgg? (db : DB) (mid : Nat) : Option MovieRow :=
  db.movies.find? (fun m => m.id == mid)

/-- `submitReview`: the `INSERT INTO reviews (user_id, movie_id, rating,
review_text)` issued by `ReviewForm.tsx` `handleSubmit` (the client inserts
its own `user_id`, which satisfies the RLS insert policy
`WITH CHECK (auth.uid() = user_id)`). The CHECK constraint rejects a rating
outside [1,5]; the UNIQUE(user_id, movie_id) constraint rejects a second
review for the same pair; on success the AFTER INSERT trigger
`update_movie_rating_on_insert` recomputes the aggregate for
`NEW.movie_id` inside the same transaction. -/
def submitReview (db : DB) (uid mid : Nat) (rating : Int)
    (text : Option String) (rid : Nat) : Except Err DB :=
  if rating < 1 ∨ 5 < rating then .error .invalidInput
  else if db.reviews.any (fun r => r.user_id == uid && r.movie_id == mid) then
    .error .duplicateEntry
  else
    .ok (update_movie_rating
      { db with reviews := db.reviews ++
          [{ id := rid, user_id := uid, movie_id := mid, rating := rating,
             review_text := text }] }
      mid)

/-- Modelled from the spec: the client-side review-edit path is not in the
source tree; spec §6 gives `updateReview(review_id, acting_user_id, rating,
text)`. It issues `UPDATE reviews SET rating = .., review_text = .. WHERE
id = review_id`; the migration's RLS policy "Users can update their own
reviews" (`USING (auth.uid() = user_id)`) restricts the update to rows
owned by the acting user, so an update matching zero rows completes
without error as a no-op. For a matched row, the CHECK constraint rejects
a rating outside [1,5] (aborting the statement before the AFTER trigger
runs), and otherwise the AFTER UPDATE trigger `update_movie_rating_on_update`
recomputes the aggregate for `COALESCE(NEW.movie_id, OLD.movie_id)` =
the row's (unchanged) movie id. -/
def updateReview (db : DB) (acting rid : Nat) (rating : Int)
    (text : Option String) : Except Err DB :=
  match db.reviews.find? (fun r => r.id == rid && r.user_id == acting) with
  | none => .ok db
  | some r =>
    if rating < 1 ∨ 5 < rating then .error .invalidInput
    else
      .ok (update_movie_rating
        { db with reviews := db.reviews.map (fun q =>
            if q.id == rid && q.user_id == acting then
              { q with rating := rating, review_text := text }
            else q) }
        r.movie_id)

/-- `deleteReview`: the `DELETE FROM reviews WHERE id = rid AND user_id =
acting` issued by `MyReviews` `handleDeleteReview` (the RLS policy "Users
can delete their own reviews" imposes the same `user_id` filter). A delete
matching zero rows completes without error as a no-op; for a matched row
the AFTER DELETE trigger `update_movie_rating_on_delete` recomputes the
aggregate for `OLD.movie_id`. -/
def deleteReview (db : DB) (acting rid : Nat) : Except Err DB :=
  match db.reviews.find? (fun r => r.id == rid && r.user_id == acting) with
  | none => .ok db
  | some r =>
    .ok (update_movie_rating
      { db with reviews := db.reviews.filter (fun q =>
          !(q.id == rid && q.user_id == acting)) }
      r.movie_id)

/-- A raw `UPDATE public.reviews SET movie_id = newMid WHERE id = rid`
(the schema does not forbid reassigning `movie_id`; no application path
does it). `movie_id` is NOT NULL, so in the AFTER UPDATE trigger
`COALESCE(NEW.movie_id, OLD.movie_id)` evaluates to `NEW.movie_id =
newMid`, and only that movie's row is recomputed. -/
def updateReviewRowMovie (db : DB) (rid newMid : Nat) : DB :=
  match db.reviews.find? (fun r => r.id == rid) with
  | none => db
  | some _ =>
    update_movie_rating
      { db with reviews := db.reviews.map (fun q =>
          if q.id == rid then { q with movie_id := newMid } else q) }
      newMid

/-- `INSERT INTO watchlist (user_id, movie_id)` issued by `Home.tsx`
`handleWatchlistToggle`; the `UNIQUE(user_id, movie_id)` constraint
rejects a second entry for the same pair. No trigger is attached to
`watchlist`. -/
def addToWatchlist (db : DB) (uid mid wid : Nat) : Except Err DB :=
  if db.watchlist.any (fun w => w.user_id == uid && w.movie_id == mid) then
    .error .duplicateEntry
  else
    .ok { db with watchlist := db.watchlist ++
      [{ id := wid, user_id := uid, movie_id := mid }] }

/-- `DELETE FROM watchlist WHERE user_id = uid AND movie_id = mid` issued
by `Home.tsx` `handleWatchlistToggle`; a no-op when absent. -/
def removeFromWatchlist (db : DB) (uid mid : Nat) : DB :=
  { db with watchlist := db.watchlist.filter (fun w =>
      !(w.user_id == uid && w.movie_id == mid)) }

/-- The database state a caller observes after a call: an error aborts the
enclosing transaction (the AFTER-row triggers run inside the mutating
statement's transaction), so on an error the pre-call state remains. -/
def observedState (db : DB) : Except Err DB → DB
  | .ok db1 => db1
  | .error _ => db

/-- `update_movie_rating` with an injected fault: when `fault` is set the
trigger body raises instead of performing its UPDATE. A raised error in an
AFTER-row trigger aborts the whole mutating statement, so the caller gets
an error and no new state. -/
def update_movie_rating_faulty (fault : Bool) (db : DB) (target : Nat) :
    Except Err DB :=
  if fault then .error .aggregationFailure
  else .ok (update_movie_rating db target)

/-- `submitReview` with the fault-injectable trigger: the INSERT and its
AFTER INSERT trigger form one transaction, so a trigger failure yields an
error and discards the inserted row. -/
def submitReviewTx (fault : Bool) (db : DB) (uid mid : Nat) (rating : Int)
    (text : Option String) (rid : Nat) : Except Err DB :=
  if rating < 1 ∨ 5 < rating then .error .invalidInput
  else if db.reviews.any (fun r => r.user_id == uid && r.movie_id == mid) then
    .error .duplicateEntry
  else
    update_movie_rating_faulty fault
      { db with reviews := db.reviews ++
          [{ id := rid, user_id := uid, movie_id := mid, rating := rating,
             review_text := text }] }
      mid

/-- `updateReview` with the fault-injectable trigger. -/
def updateReviewTx (fault : Bool) (db : DB) (acting rid : Nat)
    (rating : Int) (text : Option String) : Except Err DB :=
  match db.reviews.find? (fun r => r.id == rid && r.user_id == acting) with
  | none => .ok db
  | some r =>
    if rating < 1 ∨ 5 < rating then .error .invalidInput
    else
      update_movie_rating_faulty fault
        { db with reviews := db.reviews.map (fun q =>
            if q.id == rid && q.user_id == acting then
              { q with rating := rating, review_text := text }
            else q) }
        r.movie_id

/-- `deleteReview` with the fault-injectable trigger. -/
def deleteReviewTx (fault : Bool) (db : DB) (acting rid : Nat) :
    Except Err DB :=
  match db.reviews.find? (fun r => r.id == rid && r.user_id == acting) with
  | none => .ok db
  | some r =>
    update_movie_rating_faulty fault
      { db with reviews := db.reviews.filter (fun q =>
          !(q.id == rid && q.user_id == acting)) }
      r.movie_id

/-- Spec §8 P1 for one movie row: `total_reviews` is the count of review
rows for that movie, and `average_rating` holds the stored (rounded)
average of their ratings — 0 hundredths when there are none. -/
def movieConsistent (rs : List Review) (m : MovieRow) : Prop :=
  m.total_reviews = (reviewsFor rs m.id).length ∧
  m.average_rating = storedAverage rs m.id

instance (rs : List Review) (m : MovieRow) : Decidable (movieConsistent rs m) := by
  unfold movieConsistent
  infer_instance

/-- Spec §8 P1: every movie row carries the aggregate of the current
review set. -/
def Consistent (db : DB) : Prop :=
  ∀ m ∈ db.movies, movieConsistent db.reviews m

instance (db : DB) : Decidable (Consistent db) := by
  unfold Consistent
  infer_instance

/-- The PRIMARY KEY of `public.reviews`: `id` determines the row. -/
def ReviewIdsInjective (db : DB) : Prop :=
  ∀ r ∈ db.reviews, ∀ s ∈ db.reviews, r.id = s.id → r = s

instance (db : DB) : Decidable (ReviewIdsInjective db) := by
  unfold ReviewIdsInjective
  infer_instance

/-- The `UNIQUE(user_id, movie_id)` constraint of `public.watchlist`:
at most one entry per (user, movie) pair. -/
def WatchlistPairUnique (l : List WatchlistRow) : Prop :=
  ∀ w ∈ l, ∀ v ∈ l, w.user_id = v.user_id → w.movie_id = v.movie_id → w = v

instance (l : List WatchlistRow) : Decidable (WatchlistPairUnique l) := by
  unfold WatchlistPairUnique
  infer_instance

/-- The spec's reading of P1 (§8): `total_reviews` counts the movie's
reviews, and the stored column, read back as a decimal (hundredths / 100),
is the two-decimal rounding of the exact mean — 0.00 when there are no
reviews. -/
def ConsistentQ (db : DB) : Prop :=
  ∀ m ∈ db.movies,
    m.total_reviews = (reviewsFor db.reviews m.id).length ∧
    (m.average_rating : ℚ) / 100 = round2 (avgRating db.reviews m.id)

/-! ### Concrete fixtures

`scnA0`–`scnA5` replay spec §8 Scenario A; the `w…` fixtures are small
states used to instantiate the universally quantified theorems at
concrete inputs. -/

/-- Scenario A's movie X, with no reviews yet. -/
def movieX : MovieRow :=
  { id := 100, average_rating := 0, total_reviews := 0 }

def scnA0 : DB := { movies := [movieX], reviews := [], watchlist := [] }

/-- U1 (user 1) submits rating 4. -/
def scnA1 : DB := observedState scnA0 (submitReview scnA0 1 100 4 none 11)

/-- U2 (user 2) submits rating 5. -/
def scnA2 : DB := observedState scnA1 (submitReview scnA1 2 100 5 none 12)

/-- U1 updates their rating to 2. -/
def scnA3 : DB := observedState scnA2 (updateReview scnA2 1 11 2 none)

/-- U2 deletes their review. -/
def scnA4 : DB := observedState scnA3 (deleteReview scnA3 2 12)

/-- U1 deletes their review. -/
def scnA5 : DB := observedState scnA4 (deleteReview scnA4 1 11)

/-- Witness fixture: user 1's rating-4 review of movie 100. -/
def wReview : Review :=
  { id := 11, user_id := 1, movie_id := 100, rating := 4, review_text := none }

/-- Witness fixture: movie 100, aggregating `wReview` (4.00 ↦ 400). -/
def wMovieA : MovieRow :=
  { id := 100, average_rating := 400, total_reviews := 1 }

/-- Witness fixture: movie 200, unreviewed. -/
def wMovieB : MovieRow :=
  { id := 200, average_rating := 0, total_reviews := 0 }

/-- Witness fixture: a consistent two-movie state with one review and one
watchlist entry. -/
def wDB : DB :=
  { movies := [wMovieA, wMovieB],
    reviews := [wReview],
    watchlist := [{ id := 31, user_id := 1, movie_id := 100 }] }

/-! ### Supporting lemmas -/

theorem roundCenti_eq_floor (s : Int) (n : Nat) (hn : 0 < n) :
    roundCenti s n = ⌊(s : ℚ) / (n : ℚ) * 100 + 1 / 2⌋ := by
  unfold roundCenti
  rw [Int.fdiv_eq_ediv _ (by positivity)]
  have hn0 : ((n : ℚ)) ≠ 0 := by positivity
  have : ((s : ℚ) / (n : ℚ) * 100 + 1 / 2) =
      ((200 * s + n : ℤ) : ℚ) / ((2 * n : ℕ) : ℚ) := by
    push_cast
    field_simp
    ring
  rw [this, Rat.floor_intCast_div_natCast]
  push_cast
  rfl

theorem storedAverage_eq_round2_avg (rs : List Review) (mid : Nat) :
    (storedAverage rs mid : ℚ) / 100 = round2 (avgRating rs mid) := by
  unfold storedAverage avgRating round2
  by_cases h : (reviewsFor rs mid).length = 0
  · rw [if_pos h, if_pos h]
    norm_num [Int.floor_eq_zero_iff, Set.mem_Ico]
  · rw [if_neg h, if_neg h,
      roundCenti_eq_floor _ _ (Nat.pos_of_ne_zero h)]

theorem consistentQ_iff (db : DB) : ConsistentQ db ↔ Consistent db := by
  unfold ConsistentQ Consistent movieConsistent
  refine forall₂_congr fun m hm => and_congr Iff.rfl ?_
  rw [← storedAverage_eq_round2_avg]
  constructor
  · intro h
    field_simp at h
    exact_mod_cast h
  · intro h
    rw [h]

theorem find?_setMovieAgg_self (ms : List MovieRow) (mid : Nat) (avg : Int)
    (cnt : Nat) :
    (setMovieAgg ms mid avg cnt).find? (fun m => m.id == mid) =
      (ms.find? (fun m => m.id == mid)).map
        (fun m => { m with average_rating := avg, total_reviews := cnt }) := by
  unfold setMovieAgg
  induction ms with
  | nil => rfl
  | cons a ms ih =>
    simp only [List.map_cons]
    by_cases h : (a.id == mid) = true
    · rw [if_pos h]
      simp [List.find?_cons, h]
    · rw [if_neg h]
      simp only [List.find?_cons, h]
      simpa [h] using ih

theorem find?_setMovieAgg_ne (ms : List MovieRow) (mid target : Nat)
    (avg : Int) (cnt : Nat) (h : mid ≠ target) :
    (setMovieAgg ms target avg cnt).find? (fun m => m.id == mid) =
      ms.find? (fun m => m.id == mid) := by
  unfold setMovieAgg
  induction ms with
  | nil => rfl
  | cons a ms ih =>
    simp only [List.map_cons]
    by_cases ht : (a.id == target) = true
    · have ht2 : a.id = target := by simpa using ht
      have hmid : (a.id == mid) = false := by
        simp only [ht2, beq_eq_false_iff_ne]
        omega
      rw [if_pos ht]
      simp only [List.find?_cons, hmid]
      exact ih
    · rw [if_neg ht]
      by_cases hm : (a.id == mid) = true
      · simp [List.find?_cons, hm]
      · have hm2 : (a.id == mid) = false := by simpa using hm
        simp only [List.find?_cons, hm2]
        exact ih

theorem movieAgg?_update_self (db : DB) (t : Nat) :
    movieAgg? (update_movie_rating db t) t =
      (movieAgg? db t).map (fun m =>
        { m with average_rating := storedAverage db.reviews t,
                 total_reviews := (reviewsFor db.reviews t).length }) := by
  unfold movieAgg? update_movie_rating
  exact find?_setMovieAgg_self db.movies t _ _

theorem movieAgg?_update_ne (db : DB) (t mid : Nat) (h : mid ≠ t) :
    movieAgg? (update_movie_rating db t) mid = movieAgg? db mid := by
  unfold movieAgg? update_movie_rating
  exact find?_setMovieAgg_ne db.movies mid t _ _ h

theorem reviewsFor_append (rs : List Review) (r : Review) (mid : Nat) :
    reviewsFor (rs ++ [r]) mid =
      reviewsFor rs mid ++ if r.movie_id == mid then [r] else [] := by
  unfold reviewsFor
  rw [List.filter_append]
  congr 1
  by_cases h : (r.movie_id == mid) = true
  · rw [if_pos h]
    simp [h]
  · rw [if_neg h]
    simp [h]

theorem reviewsFor_map (rs : List Review) (f : Review → Review)
    (hf : ∀ r, (f r).movie_id = r.movie_id) (mid : Nat) :
    reviewsFor (rs.map f) mid = (reviewsFor rs mid).map f := by
  unfold reviewsFor
  rw [List.filter_map]
  congr 1
  refine List.filter_congr fun a _ => ?_
  simp [Function.comp, hf a]

theorem reviewsFor_filter (rs : List Review) (p : Review → Bool) (mid : Nat) :
    reviewsFor (rs.filter p) mid = (reviewsFor rs mid).filter p := by
  unfold reviewsFor
  rw [List.filter_filter, List.filter_filter]
  exact List.filter_congr fun a _ => Bool.and_comm _ _

theorem map_eq_self_of_mem {α} (l : List α) (f : α → α)
    (h : ∀ q ∈ l, f q = q) : l.map f = l := by
  induction l with
  | nil => rfl
  | cons a l ih =>
    rw [List.map_cons, h a (by simp), ih fun q hq => h q (by simp [hq])]

theorem find?_eq_of_mem_unique {α} (l : List α) (p : α → Bool) (a : α)
    (ha : a ∈ l) (hpa : p a = true) (huniq : ∀ b ∈ l, p b = true → b = a) :
    l.find? p = some a := by
  induction l with
  | nil => cases ha
  | cons x l ih =>
    by_cases hx : p x = true
    · rw [List.find?_cons_of_pos _ hx]
      exact congrArg some (huniq x (by simp) hx)
    · rw [List.find?_cons_of_neg _ hx]
      have ha2 : a ∈ l := by
        rcases List.mem_cons.mp ha with h | h
        · exact absurd (h ▸ hpa) hx
        · exact h
      exact ih ha2 fun b hb hpb => huniq b (List.mem_cons_of_mem _ hb) hpb

theorem movieConsistent_congr (rs rs2 : List Review) (m : MovieRow)
    (h : reviewsFor rs2 m.id = reviewsFor rs m.id) :
    movieConsistent rs m ↔ movieConsistent rs2 m := by
  unfold movieConsistent storedAverage
  rw [h]

theorem reviewsFor_insert_ne (rs : List Review) (r : Review) (mid : Nat)
    (h : r.movie_id ≠ mid) :
    reviewsFor (rs ++ [r]) mid = reviewsFor rs mid := by
  rw [reviewsFor_append]
  simp [beq_eq_false_iff_ne, h]

/-- The app-layer update rewrites only `rating` and `review_text`, so every
review keeps its movie. -/
theorem updateFun_movie_id (acting rid : Nat) (rating : Int)
    (text : Option String) (q : Review) :
    ((fun q : Review =>
        if q.id == rid && q.user_id == acting then
          { q with rating := rating, review_text := text }
        else q) q).movie_id = q.movie_id := by
  by_cases hcond : (q.id == rid && q.user_id == acting) = true <;>
    simp [hcond]

/-- Updating the matched review leaves the review set of every other
movie unchanged (the matched review is unique by the PRIMARY KEY). -/
theorem reviewsFor_update_ne (db : DB) (acting rid : Nat) (rating : Int)
    (text : Option String) (r : Review)
    (hpk : ReviewIdsInjective db)
    (hfind : db.reviews.find?
      (fun q => q.id == rid && q.user_id == acting) = some r)
    (mid : Nat) (hne : mid ≠ r.movie_id) :
    reviewsFor (db.reviews.map (fun q =>
        if q.id == rid && q.user_id == acting then
          { q with rating := rating, review_text := text }
        else q)) mid = reviewsFor db.reviews mid := by
  rw [reviewsFor_map _ _ (updateFun_movie_id acting rid rating text)]
  apply map_eq_self_of_mem
  intro q hq
  by_cases hcond : (q.id == rid && q.user_id == acting) = true
  · exfalso
    have hqmem : q ∈ db.reviews := (List.mem_filter.mp hq).1
    have hrmem : r ∈ db.reviews := List.mem_of_find?_eq_some hfind
    have hrp : (r.id == rid && r.user_id == acting) = true := by
      have h2 := List.find?_some hfind
      simpa using h2
    have hqid : q.id = rid := by
      have := (Bool.and_eq_true _ _).mp hcond
      simpa using this.1
    have hrid : r.id = rid := by
      have := (Bool.and_eq_true _ _).mp hrp
      simpa using this.1
    have hqr : q = r := hpk q hqmem r hrmem (by rw [hqid, hrid])
    have hqmid : q.movie_id = mid := by
      simpa using (List.mem_filter.mp hq).2
    exact hne (by rw [← hqmid, hqr])
  · simp [hcond]

/-- Deleting the matched review leaves the review set of every other
movie unchanged (the matched review is unique by the PRIMARY KEY). -/
theorem reviewsFor_delete_ne (db : DB) (acting rid : Nat) (r : Review)
    (hpk : ReviewIdsInjective db)
    (hfind : db.reviews.find?
      (fun q => q.id == rid && q.user_id == acting) = some r)
    (mid : Nat) (hne : mid ≠ r.movie_id) :
    reviewsFor (db.reviews.filter
        (fun q => !(q.id == rid && q.user_id == acting))) mid
      = reviewsFor db.reviews mid := by
  rw [reviewsFor_filter]
  apply List.filter_eq_self.mpr
  intro q hq
  by_cases hcond : (q.id == rid && q.user_id == acting) = true
  · exfalso
    have hqmem : q ∈ db.reviews := (List.mem_filter.mp hq).1
    have hrmem : r ∈ db.reviews := List.mem_of_find?_eq_some hfind
    have hrp : (r.id == rid && r.user_id == acting) = true := by
      have h2 := List.find?_some hfind
      simpa using h2
    have hqid : q.id = rid := by
      have := (Bool.and_eq_true _ _).mp hcond
      simpa using this.1
    have hrid : r.id = rid := by
      have := (Bool.and_eq_true _ _).mp hrp
      simpa using this.1
    have hqr : q = r := hpk q hqmem r hrmem (by rw [hqid, hrid])
    have hqmid : q.movie_id = mid := by
      simpa using (List.mem_filter.mp hq).2
    exact hne (by rw [← hqmid, hqr])
  · simp [hcond]

theorem consistent_update_movie_rating (db : DB) (target : Nat)
    (h : ∀ m ∈ db.movies, m.id ≠ target → movieConsistent db.reviews m) :
    Consistent (update_movie_rating db target) := by
  intro m hm
  have hrev : (update_movie_rating db target).reviews = db.reviews := rfl
  rw [hrev]
  unfold update_movie_rating setMovieAgg at hm
  simp only [List.mem_map] at hm
  obtain ⟨m0, hm0, rfl⟩ := hm
  by_cases hid : (m0.id == target) = true
  · rw [if_pos hid]
    have : m0.id = target := by simpa using hid
    constructor
    · simp [this]
    · simp [this]
  · rw [if_neg hid]
    exact h m0 hm0 (by simpa using hid)

theorem updateReview_none (db : DB) (acting rid : Nat) (rating : Int)
    (text : Option String)
    (hfind : db.reviews.find?
      (fun q => q.id == rid && q.user_id == acting) = none) :
    updateReview db acting rid rating text = Except.ok db := by
  unfold updateReview
  rw [hfind]

theorem updateReview_found (db : DB) (acting rid : Nat) (rating : Int)
    (text : Option String) (r : Review)
    (hfind : db.reviews.find?
      (fun q => q.id == rid && q.user_id == acting) = some r) :
    updateReview db acting rid rating text =
      if rating < 1 ∨ 5 < rating then Except.error Err.invalidInput
      else Except.ok (update_movie_rating
        { db with reviews := db.reviews.map (fun q =>
            if q.id == rid && q.user_id == acting then
              { q with rating := rating, review_text := text }
            else q) }
        r.movie_id) := by
  unfold updateReview
  rw [hfind]

theorem deleteReview_none (db : DB) (acting rid : Nat)
    (hfind : db.reviews.find?
      (fun q => q.id == rid && q.user_id == acting) = none) :
    deleteReview db acting rid = Except.ok db := by
  unfold deleteReview
  rw [hfind]

theorem deleteReview_found (db : DB) (acting rid : Nat) (r : Review)
    (hfind : db.reviews.find?
      (fun q => q.id == rid && q.user_id == acting) = some r) :
    deleteReview db acting rid =
      Except.ok (update_movie_rating
        { db with reviews := db.reviews.filter (fun q =>
            !(q.id == rid && q.user_id == acting)) }
        r.movie_id) := by
  unfold deleteReview
  rw [hfind]

/-! ### Claims -/

/-- C2: Scenario A — starting from movie X with (0.00, 0): U1 submits
rating 4 → (4.00, 1); U2 submits 5 → (4.50, 2); U1 updates theirs to 2 →
(3.50, 2); U2 deletes → (2.00, 1); U1 deletes → (0.00, 0).
`average_rating` is in hundredths: 400, 450, 350, 200, 0. -/
theorem scenarioA_aggregates :
    movieAgg? scnA1 100 =
      some { id := 100, average_rating := 400, total_reviews := 1 } ∧
    movieAgg? scnA2 100 =
      some { id := 100, average_rating := 450, total_reviews := 2 } ∧
    movieAgg? scnA3 100 =
      some { id := 100, average_rating := 350, total_reviews := 2 } ∧
    movieAgg? scnA4 100 =
      some { id := 100, average_rating := 200, total_reviews := 1 } ∧
    movieAgg? scnA5 100 =
      some { id := 100, average_rating := 0, total_reviews := 0 } := by
  decide

/-- C3 (P5): deleting a movie's only remaining review resets its row to
average_rating = 0.00 (0 hundredths) and total_reviews = 0 — the same
floor value an unreviewed movie carries, not a distinct sentinel. -/
theorem delete_last_review_resets (db : DB) (acting rid mid : Nat)
    (r : Review)
    (hpk : ReviewIdsInjective db)
    (honly : reviewsFor db.reviews mid = [r])
    (hid : r.id = rid) (hu : r.user_id = acting)
    (hmov : (movieAgg? db mid).isSome = true) :
    movieAgg? (observedState db (deleteReview db acting rid)) mid =
      some { id := mid, average_rating := 0, total_reviews := 0 } := by
  have hrfor : r ∈ reviewsFor db.reviews mid := by
    rw [honly]
    simp
  have hrmem : r ∈ db.reviews := (List.mem_filter.mp hrfor).1
  have hrmid : r.movie_id = mid := by
    simpa using (List.mem_filter.mp hrfor).2
  have hfind : db.reviews.find?
      (fun q => q.id == rid && q.user_id == acting) = some r := by
    apply find?_eq_of_mem_unique _ _ _ hrmem (by simp [hid, hu])
    intro b hb hpb
    have hbid : b.id = rid := by
      have := (Bool.and_eq_true _ _).mp hpb
      simpa using this.1
    exact hpk b hb r hrmem (by rw [hbid, hid])
  unfold deleteReview
  rw [hfind]
  simp only [observedState]
  have hempty : reviewsFor (db.reviews.filter
      (fun q => !(q.id == rid && q.user_id == acting))) mid = [] := by
    rw [reviewsFor_filter, honly]
    simp [hid, hu]
  obtain ⟨m0, hm0⟩ := Option.isSome_iff_exists.mp hmov
  have hm0id : m0.id = mid := by
    have h2 := List.find?_some hm0
    simpa using h2
  rw [hrmid, movieAgg?_update_self]
  have hlook : movieAgg?
      { db with reviews := (db.reviews.filter
          (fun q => !(q.id == rid && q.user_id == acting))) } mid
      = movieAgg? db mid := rfl
  have hsa : storedAverage (db.reviews.filter
      (fun q => !(q.id == rid && q.user_id == acting))) mid = 0 := by
    unfold storedAverage
    rw [hempty]
    rfl
  rw [hlook, hm0]
  have hproj : ({ db with reviews := (db.reviews.filter
      (fun q => !(q.id == rid && q.user_id == acting))) } : DB).reviews
      = db.reviews.filter (fun q => !(q.id == rid && q.user_id == acting)) :=
    rfl
  simp only [Option.map_some', hproj, hsa, hempty]
  simp [hm0id]

/-- C3 witness: deleting the only review of movie 100 in `wDB`. -/
theorem delete_last_review_resets_witness :
    movieAgg? (observedState wDB (deleteReview wDB 1 11)) 100 =
      some { id := 100, average_rating := 0, total_reviews := 0 } :=
  delete_last_review_resets wDB 1 11 100 wReview (by decide) (by decide)
    (by decide) (by decide) (by decide)

/-- C4 (P2, Scenario B): with a review already present for the
(user, movie) pair, a second `submitReview` with a valid rating fails
with DuplicateEntry and the observable state — review rows and movie
aggregates — is unchanged from after the first submission. -/
theorem second_submit_duplicate (db : DB) (uid mid rid : Nat)
    (rating : Int) (text : Option String)
    (hr1 : 1 ≤ rating) (hr2 : rating ≤ 5)
    (hdup : (db.reviews.any
      (fun r => r.user_id == uid && r.movie_id == mid)) = true) :
    submitReview db uid mid rating text rid = .error .duplicateEntry ∧
    observedState db (submitReview db uid mid rating text rid) = db := by
  have h1 : ¬ (rating < 1 ∨ 5 < rating) := by omega
  unfold submitReview
  rw [if_neg h1, if_pos hdup]
  exact ⟨rfl, rfl⟩

/-- C4 witness: user 1 already reviewed movie 100 in `wDB`. -/
theorem second_submit_duplicate_witness :
    submitReview wDB 1 100 3 none 12 = .error .duplicateEntry ∧
    observedState wDB (submitReview wDB 1 100 3 none 12) = wDB :=
  second_submit_duplicate wDB 1 100 12 3 none (by decide) (by decide)
    (by decide)

/-- C5 counterexample: user 2 does not own review 11 (owned by user 1),
yet `updateReview` and `deleteReview` acting as user 2 do not fail with
Forbidden — the ownership policies merely match zero rows, and both
calls return success with the state unchanged. -/
theorem nonowner_mutation_not_forbidden :
    deleteReview wDB 2 11 = Except.ok wDB ∧
    updateReview wDB 2 11 5 none = Except.ok wDB ∧
    deleteReview wDB 2 11 ≠ Except.error Err.forbidden ∧
    updateReview wDB 2 11 5 none ≠ Except.error Err.forbidden := by
  refine ⟨rfl, rfl, ?_, ?_⟩
  · intro hc
    exact Except.noConfusion hc
  · intro hc
    exact Except.noConfusion hc

/-- C5 amended: an `updateReview` or `deleteReview` acting as a user who
owns no matching review is filtered to zero rows by the ownership
policies: the call completes without error as a no-op, and the review
and every movie's aggregate are unchanged (no Forbidden error is
surfaced). -/
theorem nonowner_mutation_noop (db : DB) (acting rid : Nat) (rating : Int)
    (text : Option String)
    (h : ∀ r ∈ db.reviews, r.id = rid → r.user_id ≠ acting) :
    updateReview db acting rid rating text = Except.ok db ∧
    deleteReview db acting rid = Except.ok db := by
  have hfind : db.reviews.find?
      (fun q => q.id == rid && q.user_id == acting) = none := by
    rw [List.find?_eq_none]
    intro x hx
    simp only [Bool.and_eq_true, beq_iff_eq, not_and]
    exact h x hx
  unfold updateReview deleteReview
  rw [hfind]
  exact ⟨rfl, rfl⟩

/-- C5 amended witness: user 2 owns nothing in `wDB`. -/
theorem nonowner_mutation_noop_witness :
    updateReview wDB 2 11 5 none = Except.ok wDB ∧
    deleteReview wDB 2 11 = Except.ok wDB :=
  nonowner_mutation_noop wDB 2 11 5 none (by decide)

/-- C6: a rating outside the integer range [1,5] is rejected by the CHECK
constraint with InvalidInput before any row is written and before the
AFTER trigger could recompute anything, leaving the observable state
unchanged: unconditionally on every `submitReview` (in particular on a
database with no reviews at all), and on every `updateReview` that
matches a row — an update matching zero rows updates nothing, so no
CHECK fires. (A non-integer rating cannot reach the INTEGER column at
all; it is excluded by `rating : Int`.) -/
theorem invalid_rating_rejected (db : DB) (uid mid rid acting rid2 : Nat)
    (rating : Int) (text : Option String)
    (hbad : rating < 1 ∨ 5 < rating) :
    submitReview db uid mid rating text rid = .error .invalidInput ∧
    observedState db (submitReview db uid mid rating text rid) = db ∧
    (∀ q, db.reviews.find?
        (fun r => r.id == rid2 && r.user_id == acting) = some q →
      updateReview db acting rid2 rating text = .error .invalidInput ∧
      observedState db (updateReview db acting rid2 rating text) = db) := by
  have hs : submitReview db uid mid rating text rid = .error .invalidInput := by
    unfold submitReview
    rw [if_pos hbad]
  refine ⟨hs, ?_, ?_⟩
  · rw [hs]
    rfl
  · intro q hfind
    have hu2 : updateReview db acting rid2 rating text
        = .error .invalidInput := by
      rw [updateReview_found db acting rid2 rating text q hfind,
        if_pos hbad]
    refine ⟨hu2, ?_⟩
    rw [hu2]
    rfl

/-- C6 witness: rating 9 — submit by user 2 against `wDB`, submit by
user 1 against the review-empty state `scnA0`, and update of review 11
by its owner user 1. -/
theorem invalid_rating_rejected_witness :
    (submitReview wDB 2 100 9 none 12 = .error .invalidInput ∧
      observedState wDB (submitReview wDB 2 100 9 none 12) = wDB ∧
      updateReview wDB 1 11 9 none = .error .invalidInput ∧
      observedState wDB (updateReview wDB 1 11 9 none) = wDB) ∧
    submitReview scnA0 1 100 9 none 11 = .error .invalidInput ∧
    observedState scnA0 (submitReview scnA0 1 100 9 none 11) = scnA0 := by
  obtain ⟨h1, h2, h3⟩ :=
    invalid_rating_rejected wDB 2 100 12 1 11 9 none (by decide)
  obtain ⟨h4, h5⟩ := h3 wReview (by decide)
  obtain ⟨h6, h7, _⟩ :=
    invalid_rating_rejected scnA0 1 100 11 1 11 9 none (by decide)
  exact ⟨⟨h1, h2, h4, h5⟩, h6, h7⟩

/-- C7 (P4): with a fault injected into the aggregate recomputation, every
review mutation rolls back wholly — the observable state equals the
pre-call state, with no partially applied state (e.g. a row mutated but
the aggregate stale) ever visible — and the fault-free transactional
variants agree exactly with the plain operations. -/
theorem aggregation_failure_rolls_back (db : DB)
    (uid mid rid acting rid2 : Nat) (rating rating2 : Int)
    (text text2 : Option String) :
    observedState db (submitReviewTx true db uid mid rating text rid) = db ∧
    observedState db (updateReviewTx true db acting rid2 rating2 text2) = db ∧
    observedState db (deleteReviewTx true db acting rid2) = db ∧
    submitReviewTx false db uid mid rating text rid
      = submitReview db uid mid rating text rid ∧
    updateReviewTx false db acting rid2 rating2 text2
      = updateReview db acting rid2 rating2 text2 ∧
    deleteReviewTx false db acting rid2 = deleteReview db acting rid2 := by
  refine ⟨?_, ?_, ?_, ?_, ?_, ?_⟩
  · unfold submitReviewTx update_movie_rating_faulty
    by_cases h1 : rating < 1 ∨ 5 < rating
    · simp [observedState, h1]
    · by_cases h2 : (db.reviews.any
        (fun r => r.user_id == uid && r.movie_id == mid)) = true
      · simp [observedState, h1, h2]
      · simp [observedState, h1, h2]
  · unfold updateReviewTx update_movie_rating_faulty
    cases hfind : db.reviews.find?
        (fun r => r.id == rid2 && r.user_id == acting) with
    | none => rfl
    | some r =>
      by_cases h1 : rating2 < 1 ∨ 5 < rating2
      · simp [observedState, h1]
      · simp [observedState, h1]
  · unfold deleteReviewTx update_movie_rating_faulty
    cases hfind : db.reviews.find?
        (fun r => r.id == rid2 && r.user_id == acting) with
    | none => rfl
    | some r => simp [observedState]
  · rfl
  · rfl
  · rfl

/-- C8: a review mutation recomputes and writes back only its target
movie's row (`WHERE id = COALESCE(NEW.movie_id, OLD.movie_id)`): every
movie other than the insert's movie is unchanged by `submitReview` —
unconditionally, in particular when the inserted review is its movie's
first — and every movie other than the matched row's movie is unchanged
by `updateReview` and `deleteReview` (an unmatched update or delete
changes nothing at all). -/
theorem aggregate_write_frame (db : DB) (uid mid rid acting rid2 m : Nat)
    (rating rating2 : Int) (text text2 : Option String)
    (hm1 : m ≠ mid) :
    movieAgg? (observedState db (submitReview db uid mid rating text rid)) m
      = movieAgg? db m ∧
    (∀ q, db.reviews.find?
        (fun r => r.id == rid2 && r.user_id == acting) = some q →
      m ≠ q.movie_id →
      movieAgg?
          (observedState db (updateReview db acting rid2 rating2 text2)) m
        = movieAgg? db m ∧
      movieAgg? (observedState db (deleteReview db acting rid2)) m
        = movieAgg? db m) := by
  refine ⟨?_, ?_⟩
  · unfold submitReview
    by_cases h1 : rating < 1 ∨ 5 < rating
    · rw [if_pos h1]
      rfl
    · rw [if_neg h1]
      by_cases h2 : (db.reviews.any
        (fun r => r.user_id == uid && r.movie_id == mid)) = true
      · rw [if_pos h2]
        rfl
      · rw [if_neg h2]
        simp only [observedState]
        exact movieAgg?_update_ne _ mid m hm1
  · intro q hfind hm2
    refine ⟨?_, ?_⟩
    · rw [updateReview_found db acting rid2 rating2 text2 q hfind]
      by_cases h1 : rating2 < 1 ∨ 5 < rating2
      · rw [if_pos h1]
        rfl
      · rw [if_neg h1]
        simp only [observedState]
        exact movieAgg?_update_ne _ q.movie_id m hm2
    · rw [deleteReview_found db acting rid2 q hfind]
      simp only [observedState]
      exact movieAgg?_update_ne _ q.movie_id m hm2

/-- C8 witness: mutations on movie 100 of `wDB` leave movie 200's row
untouched, and inserting movie 200's very first review leaves movie
100's row untouched. -/
theorem aggregate_write_frame_witness :
    (movieAgg? (observedState wDB (submitReview wDB 2 100 5 none 12)) 200
      = movieAgg? wDB 200 ∧
    movieAgg? (observedState wDB (updateReview wDB 1 11 2 none)) 200
      = movieAgg? wDB 200 ∧
    movieAgg? (observedState wDB (deleteReview wDB 1 11)) 200
      = movieAgg? wDB 200) ∧
    movieAgg? (observedState wDB (submitReview wDB 1 200 5 none 12)) 100
      = movieAgg? wDB 100 := by
  obtain ⟨h1, h2⟩ :=
    aggregate_write_frame wDB 2 100 12 1 11 200 5 2 none none (by decide)
  obtain ⟨h3, h4⟩ := h2 wReview (by decide) (by decide)
  refine ⟨⟨h1, h3, h4⟩, ?_⟩
  exact (aggregate_write_frame wDB 1 200 12 1 11 100 5 2 none none
    (by decide)).1

/-- C9: the watchlist keeps at most one entry per (user, movie) pair —
adding an already-present pair fails with DuplicateEntry and creates
nothing, a successful add and a removal both preserve pair-uniqueness —
and no watchlist operation changes any review row or any movie's
aggregate fields. -/
theorem watchlist_independent (db : DB) (uid mid wid uid2 mid2 : Nat)
    (huniq : WatchlistPairUnique db.watchlist) :
    ((db.watchlist.any
        (fun w => w.user_id == uid && w.movie_id == mid)) = true →
      addToWatchlist db uid mid wid = .error .duplicateEntry ∧
      observedState db (addToWatchlist db uid mid wid) = db) ∧
    (∀ db2, addToWatchlist db uid mid wid = Except.ok db2 →
      WatchlistPairUnique db2.watchlist) ∧
    WatchlistPairUnique (removeFromWatchlist db uid2 mid2).watchlist ∧
    (observedState db (addToWatchlist db uid mid wid)).reviews
      = db.reviews ∧
    (observedState db (addToWatchlist db uid mid wid)).movies
      = db.movies ∧
    (removeFromWatchlist db uid2 mid2).reviews = db.reviews ∧
    (removeFromWatchlist db uid2 mid2).movies = db.movies := by
  refine ⟨?_, ?_, ?_, ?_, ?_, rfl, rfl⟩
  · intro h
    unfold addToWatchlist
    rw [if_pos h]
    exact ⟨rfl, rfl⟩
  · intro db2 hok
    unfold addToWatchlist at hok
    by_cases h : (db.watchlist.any
        (fun w => w.user_id == uid && w.movie_id == mid)) = true
    · rw [if_pos h] at hok
      cases hok
    · rw [if_neg h] at hok
      cases hok
      intro w hw v hv h1 h2
      have hmem := fun x (hx : x ∈ db.watchlist)
          (hxu : x.user_id = uid) (hxm : x.movie_id = mid) =>
        h (List.any_eq_true.mpr ⟨x, hx, by simp [hxu, hxm]⟩)
      rcases List.mem_append.mp hw with hw1 | hw1 <;>
        rcases List.mem_append.mp hv with hv1 | hv1
      · exact huniq w hw1 v hv1 h1 h2
      · have hv2 : v = { id := wid, user_id := uid, movie_id := mid } := by
          simpa using hv1
        have hu3 : w.user_id = uid := by rw [h1, hv2]
        have hm3 : w.movie_id = mid := by rw [h2, hv2]
        exact (hmem w hw1 hu3 hm3).elim
      · have hw2 : w = { id := wid, user_id := uid, movie_id := mid } := by
          simpa using hw1
        have hu3 : v.user_id = uid := by rw [← h1, hw2]
        have hm3 : v.movie_id = mid := by rw [← h2, hw2]
        exact (hmem v hv1 hu3 hm3).elim
      · have hw2 : w = { id := wid, user_id := uid, movie_id := mid } := by
          simpa using hw1
        have hv2 : v = { id := wid, user_id := uid, movie_id := mid } := by
          simpa using hv1
        rw [hw2, hv2]
  · intro w hw v hv h1 h2
    have hw2 := List.mem_filter.mp hw
    have hv2 := List.mem_filter.mp hv
    exact huniq w hw2.1 v hv2.1 h1 h2
  · unfold addToWatchlist
    by_cases h : (db.watchlist.any
        (fun w => w.user_id == uid && w.movie_id == mid)) = true
    · rw [if_pos h]
      rfl
    · rw [if_neg h]
      rfl
  · unfold addToWatchlist
    by_cases h : (db.watchlist.any
        (fun w => w.user_id == uid && w.movie_id == mid)) = true
    · rw [if_pos h]
      rfl
    · rw [if_neg h]
      rfl

/-- C9 witness: the pair (user 1, movie 100) is already on `wDB`'s
watchlist, and removal leaves reviews and movies untouched. -/
theorem watchlist_independent_witness :
    addToWatchlist wDB 1 100 32 = Except.error Err.duplicateEntry ∧
    (removeFromWatchlist wDB 1 100).reviews = wDB.reviews ∧
    (removeFromWatchlist wDB 1 100).movies = wDB.movies := by
  obtain ⟨hdup, _, _, _, _, hr, hm⟩ :=
    watchlist_independent wDB 1 100 32 1 100 (by decide)
  exact ⟨(hdup (by decide)).1, hr, hm⟩

/-- C10: a raw row update that reassigns a review from movie A to a
different movie B triggers recomputation targeting only B
(`COALESCE(NEW.movie_id, OLD.movie_id)` is the new, non-null movie id):
movie A's average_rating and total_reviews are not recomputed by the
operation and retain their prior values. -/
theorem movie_reassignment_targets_new (db : DB) (rid a b : Nat)
    (r : Review)
    (hfind : db.reviews.find? (fun q => q.id == rid) = some r)
    (hra : r.movie_id = a) (hab : a ≠ b) :
    movieAgg? (updateReviewRowMovie db rid b) a = movieAgg? db a := by
  unfold updateReviewRowMovie
  rw [hfind]
  exact movieAgg?_update_ne _ b a hab

/-- C10 witness: moving review 11 from movie 100 to movie 200 leaves
movie 100's (now stale) aggregates untouched. -/
theorem movie_reassignment_targets_new_witness :
    movieAgg? (updateReviewRowMovie wDB 11 200) 100 = movieAgg? wDB 100 :=
  movie_reassignment_targets_new wDB 11 100 200 wReview (by decide)
    (by decide) (by decide)

/-- C1 (P1): starting from any consistent state, each of the three review
mutations leaves every movie's row consistent: `total_reviews` equals the
number of review rows for the movie, and `average_rating`, read back as a
decimal, equals the exact mean rounded to two decimal digits at storage —
0.00 when the count is 0. -/
theorem aggregate_consistency_preserved (db : DB)
    (uid mid rid acting rid2 : Nat) (rating rating2 : Int)
    (text text2 : Option String)
    (hpk : ReviewIdsInjective db) (hc : Consistent db) :
    ConsistentQ (observedState db (submitReview db uid mid rating text rid)) ∧
    ConsistentQ
      (observedState db (updateReview db acting rid2 rating2 text2)) ∧
    ConsistentQ (observedState db (deleteReview db acting rid2)) := by
  refine ⟨?_, ?_, ?_⟩ <;> rw [consistentQ_iff]
  · unfold submitReview
    by_cases h1 : rating < 1 ∨ 5 < rating
    · rw [if_pos h1]
      exact hc
    · rw [if_neg h1]
      by_cases h2 : (db.reviews.any
        (fun r => r.user_id == uid && r.movie_id == mid)) = true
      · rw [if_pos h2]
        exact hc
      · rw [if_neg h2]
        simp only [observedState]
        refine consistent_update_movie_rating _ _ ?_
        intro m hm hne
        have hm2 : m ∈ db.movies := hm
        have hEq : reviewsFor (db.reviews ++
            [{ id := rid, user_id := uid, movie_id := mid, rating := rating,
               review_text := text }]) m.id
            = reviewsFor db.reviews m.id :=
          reviewsFor_insert_ne db.reviews _ m.id (Ne.symm hne)
        exact (movieConsistent_congr db.reviews _ m hEq).mp (hc m hm2)
  · cases hfind : db.reviews.find?
        (fun r => r.id == rid2 && r.user_id == acting) with
    | none =>
      rw [updateReview_none db acting rid2 rating2 text2 hfind]
      exact hc
    | some r =>
      rw [updateReview_found db acting rid2 rating2 text2 r hfind]
      by_cases h1 : rating2 < 1 ∨ 5 < rating2
      · rw [if_pos h1]
        exact hc
      · rw [if_neg h1]
        simp only [observedState]
        refine consistent_update_movie_rating _ _ ?_
        intro m hm hne
        have hm2 : m ∈ db.movies := hm
        have hEq := reviewsFor_update_ne db acting rid2 rating2 text2 r
          hpk hfind m.id hne
        exact (movieConsistent_congr db.reviews _ m hEq).mp (hc m hm2)
  · cases hfind : db.reviews.find?
        (fun r => r.id == rid2 && r.user_id == acting) with
    | none =>
      rw [deleteReview_none db acting rid2 hfind]
      exact hc
    | some r =>
      rw [deleteReview_found db acting rid2 r hfind]
      simp only [observedState]
      refine consistent_update_movie_rating _ _ ?_
      intro m hm hne
      have hm2 : m ∈ db.movies := hm
      have hEq := reviewsFor_delete_ne db acting rid2 r hpk hfind m.id hne
      exact (movieConsistent_congr db.reviews _ m hEq).mp (hc m hm2)

/-- C1 witness at the concrete consistent state `wDB`. -/
theorem aggregate_consistency_preserved_witness :
    ConsistentQ (observedState wDB (submitReview wDB 2 100 5 none 12)) ∧
    ConsistentQ (observedState wDB (updateReview wDB 1 11 2 none)) ∧
    ConsistentQ (observedState wDB (deleteReview wDB 1 11)) :=
  aggregate_consistency_preserved wDB 2 100 12 1 11 5 2 none none
    (by decide) (by decide)

end FilmFlair
